import Mathlib

/-!
Shallow embedding of the meeting-notes recording bot: the session and
buffer logic of `utils/audio_processor.py`, the note generation of
`utils/note_generator.py`, the command handlers of `main.py`, and the
persistence layer of `database/storage.py`.

Python dicts keyed by the Discord server id are modelled as association
lists over `Nat`; a raised exception is modelled as an `Except` result
returned together with the post-state (so that state mutations performed
before the raise are visible, exactly as in the source); the external
collaborators (Whisper transcription, llama.cpp completion) are oracle
functions passed to the orchestrating operations; files in the temp
directory are modelled as an association list from a file id (standing
for the generated path) to the written WAV content.
-/

namespace MeetingNotes

/-- Association-list lookup: the embedding of `d[k]` and `k in d` for the
Python dicts `AudioProcessor.recordings` and `active_recordings`. -/
def lookupA {α : Type} (l : List (Nat × α)) (k : Nat) : Option α :=
  match l with
  | [] => none
  | (k', v) :: rest => if k' = k then some v else lookupA rest k

/-- Association-list removal: the embedding of `del d[k]`. -/
def removeA {α : Type} (l : List (Nat × α)) (k : Nat) : List (Nat × α) :=
  match l with
  | [] => []
  | (k', v) :: rest => if k' = k then removeA rest k else (k', v) :: removeA rest k

/-- Association-list insertion: the embedding of `d[k] = v` (afterwards the
dict maps `k` to `v` and all other keys are unchanged). -/
def insertA {α : Type} (l : List (Nat × α)) (k : Nat) (v : α) : List (Nat × α) :=
  (k, v) :: removeA l k

/-- In-place update of the value stored under `k`, the embedding of a
mutation such as `d[k][field] = x`. -/
def updateA {α : Type} (l : List (Nat × α)) (k : Nat) (f : α → α) : List (Nat × α) :=
  match l with
  | [] => []
  | (k', v) :: rest =>
      if k' = k then (k', f v) :: updateA rest k f else (k', v) :: updateA rest k f

@[simp] theorem lookupA_nil {α : Type} (k : Nat) : lookupA ([] : List (Nat × α)) k = none := rfl

@[simp] theorem lookupA_insert_self {α : Type} (l : List (Nat × α)) (k : Nat) (v : α) :
    lookupA (insertA l k v) k = some v := by
  simp [insertA, lookupA]

@[simp] theorem lookupA_remove_self {α : Type} (l : List (Nat × α)) (k : Nat) :
    lookupA (removeA l k) k = none := by
  induction l with
  | nil => rfl
  | cons p rest ih =>
    obtain ⟨k', v⟩ := p
    by_cases h : k' = k
    · simpa [removeA, h] using ih
    · simpa [removeA, lookupA, h] using ih

theorem lookupA_remove_ne {α : Type} (l : List (Nat × α)) (k k' : Nat) (h : k' ≠ k) :
    lookupA (removeA l k) k' = lookupA l k' := by
  induction l with
  | nil => rfl
  | cons p rest ih =>
    obtain ⟨a, v⟩ := p
    by_cases ha : a = k
    · subst ha
      simp [removeA, lookupA, Ne.symm h, ih]
    · simp [removeA, lookupA, ha, ih]

theorem lookupA_insert_ne {α : Type} (l : List (Nat × α)) (k k' : Nat) (v : α) (h : k' ≠ k) :
    lookupA (insertA l k v) k' = lookupA l k' := by
  simp only [insertA, lookupA]
  rw [if_neg (fun hh => h hh.symm), lookupA_remove_ne l k k' h]

@[simp] theorem lookupA_update_self {α : Type} (l : List (Nat × α)) (k : Nat) (f : α → α) :
    lookupA (updateA l k f) k = (lookupA l k).map f := by
  induction l with
  | nil => rfl
  | cons p rest ih =>
    obtain ⟨a, v⟩ := p
    by_cases ha : a = k
    · subst ha
      simp [updateA, lookupA, ih]
    · simp [updateA, lookupA, ha, ih]

theorem lookupA_update_ne {α : Type} (l : List (Nat × α)) (k k' : Nat) (f : α → α) (h : k' ≠ k) :
    lookupA (updateA l k f) k' = lookupA l k' := by
  induction l with
  | nil => rfl
  | cons p rest ih =>
    obtain ⟨a, v⟩ := p
    by_cases ha : a = k
    · subst ha
      simp [updateA, lookupA, Ne.symm h, ih]
    · simp [updateA, lookupA, ha, ih]

@[simp] theorem removeA_update {α : Type} (l : List (Nat × α)) (k : Nat) (f : α → α) :
    removeA (updateA l k f) k = removeA l k := by
  induction l with
  | nil => rfl
  | cons p rest ih =>
    obtain ⟨a, v⟩ := p
    by_cases ha : a = k
    · subst ha
      simp [updateA, removeA, ih]
    · simp [updateA, removeA, ha, ih]

/-- Removing every occurrence of `k` from a plain list of keys: the embedding
of `voice_client.stop_listening()` on the per-server listening state. -/
def stopListenList (l : List Nat) (k : Nat) : List Nat :=
  l.filter (fun x => x ≠ k)

@[simp] theorem not_mem_stopListenList (l : List Nat) (k : Nat) :
    k ∉ stopListenList l k := by
  simp [stopListenList]

/-! ## `utils/audio_processor.py` -/

/-- The WAV container written by `AudioProcessor._save_audio_file`:
`wf.setnchannels(2)`, `wf.setsampwidth(2)`, `wf.setframerate(self.sample_rate)`,
`wf.writeframes(pcm_data)`.  A frame payload is a byte sequence, modelled as
`List Nat`. -/
structure WavFile where
  nchannels : Nat
  sampwidth : Nat
  framerate : Nat
  data : List Nat
  deriving DecidableEq

/-- One entry of `AudioProcessor.recordings`: the dict built in
`start_recording`.  The `voice_client` reference is modelled by the
per-server `listening` set in `ProcState`; the `auto_stop_task` handle is
modelled by the `autoStopArmed` flag (true while the task is pending, false
once cancelled); `start_time` is only used for logging and is dropped. -/
structure RecordingData where
  audio_buffer : List (List Nat)
  server_id : Nat
  channel_id : Nat
  cancelled : Bool
  autoStopArmed : Bool
  deriving DecidableEq

/-- State of one `AudioProcessor` instance plus the disk and voice-client
environment it drives: `recordings` is the dict of active sessions,
`listening` the set of servers whose voice client currently delivers frames
to the sink, `tempFiles` the WAV files present in `temp_dir` (keyed by a
file id standing for the timestamped path), and `nextFileId` /
`nextSessionId` generate fresh path and session identifiers. -/
structure ProcState where
  sample_rate : Nat
  recordings : List (Nat × RecordingData)
  listening : List Nat
  tempFiles : List (Nat × WavFile)
  nextFileId : Nat
  nextSessionId : Nat
  deriving DecidableEq

/-- Errors raised (as `ValueError`) by `AudioProcessor.stop_recording` and
`AudioProcessor._save_audio_file`. -/
inductive StopErr where
  /-- raise ValueError: No active recording for server ... -/
  | noActiveRecording : StopErr
  /-- raise ValueError: Recording for server ... was cancelled -/
  | cancelledRecording : StopErr
  /-- raise ValueError: No audio data recorded -/
  | emptyRecording : StopErr
  deriving DecidableEq

/-- `AudioProcessor._save_audio_file` (pure content part): fails when the
buffer is empty, otherwise concatenates all frame payloads in order
(`b-join` over the buffer) and writes a stereo 16-bit WAV at the configured
sample rate.  The placement of the resulting file into the temp directory
is performed by the caller `stop_recording` below. -/
def save_audio_file (sample_rate : Nat) (audio_buffer : List (List Nat)) :
    Except StopErr WavFile :=
  if audio_buffer.isEmpty then
    Except.error StopErr.emptyRecording
  else
    Except.ok { nchannels := 2, sampwidth := 2, framerate := sample_rate,
                data := audio_buffer.flatten }

/-- `AudioProcessor.start_recording`: builds the fresh recording dict entry
(empty buffer, `cancelled = False`), stores it under the server id, starts
the voice client listening with the sink, and arms the auto-stop task.
Returns the generated session id. -/
def start_recording (st : ProcState) (server_id channel_id : Nat) : ProcState × Nat :=
  let rd : RecordingData :=
    { audio_buffer := [], server_id := server_id, channel_id := channel_id,
      cancelled := false, autoStopArmed := true }
  let sess := st.nextSessionId
  ({ st with
      recordings := insertA st.recordings server_id rd,
      listening := if server_id ∈ st.listening then st.listening else server_id :: st.listening,
      nextSessionId := sess + 1 }, sess)

/-- `AudioProcessor.stop_recording`.  Mirrors the source line by line: raise
if no entry; stop listening; cancel the auto-stop task; if the entry is
marked cancelled, delete it and raise; otherwise save the WAV file (which
raises on an empty buffer BEFORE the dict entry is deleted, so on that path
the entry survives) and finally delete the entry and return the file.  The
`Except` value is returned next to the post-state so that mutations made
before a raise remain visible. -/
def stop_recording (st : ProcState) (server_id : Nat) :
    ProcState × Except StopErr (Nat × WavFile) :=
  match lookupA st.recordings server_id with
  | none => (st, Except.error StopErr.noActiveRecording)
  | some rd =>
    let st1 := { st with listening := stopListenList st.listening server_id }
    let recs := updateA st1.recordings server_id (fun r => { r with autoStopArmed := false })
    let st2 := { st1 with recordings := recs }
    if rd.cancelled then
      ({ st2 with recordings := removeA st2.recordings server_id },
       Except.error StopErr.cancelledRecording)
    else
      match save_audio_file st2.sample_rate rd.audio_buffer with
      | Except.error e => (st2, Except.error e)
      | Except.ok wav =>
        let fid := st2.nextFileId
        ({ st2 with
            recordings := removeA st2.recordings server_id,
            tempFiles := st2.tempFiles ++ [(fid, wav)],
            nextFileId := fid + 1 },
         Except.ok (fid, wav))

/-- The closure returned by `AudioProcessor._create_audio_sink`: appends the
incoming payload to the buffer only when the server is present in
`recordings` and its entry is not marked cancelled. -/
def audio_sink (st : ProcState) (server_id : Nat) (data : List Nat) : ProcState :=
  match lookupA st.recordings server_id with
  | none => st
  | some rd =>
    if rd.cancelled then st
    else
      let recs := updateA st.recordings server_id
        (fun r => { r with audio_buffer := r.audio_buffer ++ [data] })
      { st with recordings := recs }

/-- One frame arriving from the voice transport: the transport invokes the
sink callback only while the voice client is listening for this server. -/
def deliver_frame (st : ProcState) (server_id : Nat) (data : List Nat) : ProcState :=
  if server_id ∈ st.listening then audio_sink st server_id data else st

/-- The body of `AudioProcessor._auto_stop_recording` after the sleep
completes (the task was not cancelled): if the server still has an entry,
mark it cancelled, stop listening, and delete the entry.  No file is saved
and no downstream processing is triggered here. -/
def auto_stop_fire (st : ProcState) (server_id : Nat) : ProcState :=
  match lookupA st.recordings server_id with
  | none => st
  | some _ =>
    let recs := updateA st.recordings server_id (fun r => { r with cancelled := true })
    let st1 := { st with recordings := recs }
    let st2 := { st1 with listening := stopListenList st1.listening server_id }
    { st2 with recordings := removeA st2.recordings server_id }

/-! ## `database/storage.py` -/

/-- A Python `datetime` value, to the precision the program manipulates. -/
structure PyDateTime where
  year : Nat
  month : Nat
  day : Nat
  hour : Nat
  minute : Nat
  second : Nat
  microsecond : Nat
  deriving DecidableEq

/-- The text stored in the `start_time` / `end_time` columns: the image of
`strftime` with format `%Y-%m-%d %H:%M:%S`, which renders exactly the six
fields below (zero-padded) and drops the microsecond field. -/
structure DateText where
  year : Nat
  month : Nat
  day : Nat
  hour : Nat
  minute : Nat
  second : Nat
  deriving DecidableEq

/-- `t.strftime("%Y-%m-%d %H:%M:%S")` in `Database.save_meeting`. -/
def strftime_ymd_hms (t : PyDateTime) : DateText :=
  { year := t.year, month := t.month, day := t.day,
    hour := t.hour, minute := t.minute, second := t.second }

/-- `datetime.strptime(s, "%Y-%m-%d %H:%M:%S")` in `Database.get_meeting`:
the parsed datetime has microsecond 0, since the format carries no
sub-second field. -/
def strptime_ymd_hms (s : DateText) : PyDateTime :=
  { year := s.year, month := s.month, day := s.day,
    hour := s.hour, minute := s.minute, second := s.second, microsecond := 0 }

/-- Truncation of a datetime to whole-second precision. -/
def truncToSecond (t : PyDateTime) : PyDateTime :=
  { t with microsecond := 0 }

/-- One row of the `meetings` table as inserted by `Database.save_meeting`.
The `created_at` column is filled by SQLite (`DEFAULT CURRENT_TIMESTAMP`),
not by the program, and no claim concerns it, so it is omitted.  The
`server_id` and `channel_id` values are stored and returned unchanged. -/
structure MeetingRow where
  id : Nat
  server_id : Nat
  channel_id : Nat
  meeting_name : String
  start_time : DateText
  end_time : DateText
  transcript : String
  notes : String
  deriving DecidableEq

/-- The dictionary returned by `Database.get_meeting`, with the two
timestamp columns parsed back through `strptime`. -/
structure Meeting where
  id : Nat
  server_id : Nat
  channel_id : Nat
  meeting_name : String
  start_time : PyDateTime
  end_time : PyDateTime
  transcript : String
  notes : String
  deriving DecidableEq

/-- The `meetings` table plus the `AUTOINCREMENT` counter for the `id`
primary key (SQLite starts it at 1). -/
structure DB where
  rows : List MeetingRow
  nextId : Nat
  deriving DecidableEq

/-- `Database.save_meeting`: formats the two datetimes with
`%Y-%m-%d %H:%M:%S`, inserts the row, and returns `cursor.lastrowid`. -/
def save_meeting (db : DB) (server_id channel_id : Nat) (meeting_name : String)
    (start_time end_time : PyDateTime) (transcript notes : String) : DB × Nat :=
  let row : MeetingRow :=
    { id := db.nextId, server_id := server_id, channel_id := channel_id,
      meeting_name := meeting_name,
      start_time := strftime_ymd_hms start_time,
      end_time := strftime_ymd_hms end_time,
      transcript := transcript, notes := notes }
  ({ rows := db.rows ++ [row], nextId := db.nextId + 1 }, db.nextId)

/-- `Database.get_meeting`: `SELECT * FROM meetings WHERE id = ?`, parsing
the stored timestamp text back with `strptime`. -/
def get_meeting (db : DB) (meeting_id : Nat) : Option Meeting :=
  match db.rows.find? (fun r => r.id == meeting_id) with
  | none => none
  | some row =>
    some { id := row.id, server_id := row.server_id, channel_id := row.channel_id,
           meeting_name := row.meeting_name,
           start_time := strptime_ymd_hms row.start_time,
           end_time := strptime_ymd_hms row.end_time,
           transcript := row.transcript, notes := row.notes }

/-! ## `utils/note_generator.py` -/

/-- The dict returned by `llm.create_chat_completion`, reduced to what
`_process_transcript` reads: the list of `message.content` strings under
the `choices` key. -/
structure LlamaResponse where
  choices : List String
  deriving DecidableEq

/-- The prompt built by `NoteGenerator._process_transcript` around the
transcript (the surrounding instruction text is fixed; only its dependence
on the transcript matters to the orchestration). -/
def notesPrompt (transcript : String) : String :=
  "[INST] <<SYS>> You are an AI assistant specialized in summarizing meeting "
    ++ "transcripts. <</SYS>> Here is the meeting transcript: "
    ++ transcript
    ++ " Please generate structured meeting notes for this transcript. [/INST]"

/-- `NoteGenerator._process_transcript`: calls the LLM; when the call
raises, the exception is swallowed and its text returned AS the notes;
when the response has no choices a fixed error string is returned;
otherwise the first choice content, stripped.  This function never raises. -/
def process_transcript (llm : String → Except String LlamaResponse)
    (transcript : String) : String :=
  match llm (notesPrompt transcript) with
  | Except.error e => "Error generating meeting notes: " ++ e
  | Except.ok resp =>
    match resp.choices with
    | [] => "Error: Failed to generate meeting notes."
    | c :: _ => c.trim

/-! ## `main.py` -/

/-- One entry of the `active_recordings` dict built in `start_meeting`. -/
structure SessionMeta where
  session_id : Nat
  meeting_name : String
  start_time : PyDateTime
  channel_id : Nat
  user_id : Nat
  deriving DecidableEq

/-- The whole bot state: the `AudioProcessor` instance, the global
`active_recordings` dict, and the database. -/
structure BotState where
  proc : ProcState
  active : List (Nat × SessionMeta)
  db : DB
  deriving DecidableEq

/-- Outcome of the `!startmeeting` command. -/
inductive StartResult where
  /-- message: I need to be in a voice channel first -/
  | needVoiceChannel : StartResult
  /-- message: A meeting is already being recorded in this server -/
  | alreadyRecording : StartResult
  /-- recording started with the returned session id -/
  | started : Nat → StartResult
  deriving DecidableEq

/-- `start_meeting` in `main.py`: refuse without a voice client; refuse when
`active_recordings` already has an entry for the guild (the existing session
is left untouched); otherwise start the processor recording and insert the
session metadata.  `defaultName` stands for the timestamp-derived label
built when no name is supplied; `now` for `datetime.now()`. -/
def start_meeting (st : BotState) (connected : Bool) (server_id channel_id user_id : Nat)
    (meeting_name : Option String) (defaultName : String) (now : PyDateTime) :
    BotState × StartResult :=
  if !connected then (st, StartResult.needVoiceChannel)
  else if (lookupA st.active server_id).isSome then (st, StartResult.alreadyRecording)
  else
    let name := meeting_name.getD defaultName
    let pr := start_recording st.proc server_id channel_id
    let meta : SessionMeta :=
      { session_id := pr.2, meeting_name := name, start_time := now,
        channel_id := channel_id, user_id := user_id }
    ({ st with proc := pr.1, active := insertA st.active server_id meta },
     StartResult.started pr.2)

/-- Outcome of the `!stopmeeting` command. -/
inductive StopResult where
  /-- message: No active meeting recording in this server -/
  | noActiveMeeting : StopResult
  /-- `audio_processor.stop_recording` raised; the call sits ABOVE the
  try block, so the exception escapes the command and the trailing
  `del active_recordings[server_id]` never runs -/
  | uncaughtStop : StopErr → StopResult
  /-- a stage inside the try block raised and was caught by the except
  handler; the session entry was removed afterwards -/
  | processingError : String → StopResult
  /-- full pipeline success: persisted meeting id and the notes text -/
  | success : Nat → String → StopResult
  deriving DecidableEq

/-- `stop_meeting` in `main.py`.  Order of effects, as in the source: look
up the session; call `audio_processor.stop_recording` (outside the try
block — a raise here propagates and skips ALL cleanup); inside the try:
transcribe, generate notes (never raises), `db.save_meeting`, then
`os.remove(audio_file)`; the except block swallows any stage exception;
finally `del active_recordings[server_id]` runs on both the success and the
caught-exception paths.  `transcribe` is the Whisper oracle (it may raise),
`llm` the llama.cpp oracle, `now` stands for `datetime.now()` at the
`end_time` argument. -/
def stop_meeting (transcribe : WavFile → Except String String)
    (llm : String → Except String LlamaResponse)
    (st : BotState) (server_id : Nat) (now : PyDateTime) : BotState × StopResult :=
  match lookupA st.active server_id with
  | none => (st, StopResult.noActiveMeeting)
  | some session =>
    let pr := stop_recording st.proc server_id
    match pr.2 with
    | Except.error e => ({ st with proc := pr.1 }, StopResult.uncaughtStop e)
    | Except.ok fw =>
      match transcribe fw.2 with
      | Except.error e =>
        ({ st with proc := pr.1, active := removeA st.active server_id },
         StopResult.processingError e)
      | Except.ok transcription =>
        let notes := process_transcript llm transcription
        let dbm := save_meeting st.db server_id session.channel_id
          session.meeting_name session.start_time now transcription notes
        let proc2 := { pr.1 with tempFiles := removeA pr.1.tempFiles fw.1 }
        ({ st with proc := proc2, active := removeA st.active server_id, db := dbm.1 },
         StopResult.success dbm.2 notes)

/-- The `on_voice_state_update` handler for the bot itself leaving a voice
channel: when the guild has an active recording, call
`audio_processor.stop_recording` and then delete the `active_recordings`
entry.  When `stop_recording` raises, the exception escapes the event
handler and the deletion is skipped. -/
def on_voice_state_disconnect (st : BotState) (server_id : Nat) : BotState :=
  if (lookupA st.active server_id).isSome then
    let pr := stop_recording st.proc server_id
    match pr.2 with
    | Except.ok _ => { st with proc := pr.1, active := removeA st.active server_id }
    | Except.error _ => { st with proc := pr.1 }
  else st

/-- The auto-stop timer firing, seen at the bot level: `main.py` registers
no callback for it, so only the processor state changes; the
`active_recordings` dict and the database are untouched. -/
def auto_stop_event (st : BotState) (server_id : Nat) : BotState :=
  { st with proc := auto_stop_fire st.proc server_id }

/-! ## Derived notions and helper lemmas -/

/-- A session no longer accepts frames: the server has no `recordings`
entry, or its entry is marked cancelled, or its voice client is no longer
listening.  Every path out of the recording state establishes one of the
three disjuncts. -/
def recordingEnded (st : ProcState) (server_id : Nat) : Prop :=
  lookupA st.recordings server_id = none
  ∨ (∃ rd, lookupA st.recordings server_id = some rd ∧ rd.cancelled = true)
  ∨ server_id ∉ st.listening

theorem save_audio_file_cons (sample_rate : Nat) (f : List Nat) (rest : List (List Nat)) :
    save_audio_file sample_rate (f :: rest) =
      Except.ok { nchannels := 2, sampwidth := 2, framerate := sample_rate,
                  data := (f :: rest).flatten } := rfl

theorem find?_rows_append (rows : List MeetingRow) (row : MeetingRow)
    (h : ∀ r ∈ rows, r.id ≠ row.id) :
    (rows ++ [row]).find? (fun r => r.id == row.id) = some row := by
  induction rows with
  | nil => simp
  | cons a rest ih =>
    have ha : a.id ≠ row.id := h a (List.mem_cons_self a rest)
    have ih' := ih (fun r hr => h r (List.mem_cons_of_mem a hr))
    simp [List.find?_cons, ha, ih']

theorem removeA_append_of_fresh {α : Type} (l : List (Nat × α)) (k : Nat) (v : α)
    (h : ∀ p ∈ l, p.1 ≠ k) :
    removeA (l ++ [(k, v)]) k = l := by
  induction l with
  | nil => simp [removeA]
  | cons a rest ih =>
    have ha : a.1 ≠ k := h a (List.mem_cons_self a rest)
    have ih' := ih (fun p hp => h p (List.mem_cons_of_mem a hp))
    obtain ⟨b, w⟩ := a
    simp only [List.cons_append, removeA]
    simp only at ha
    simp [ha, ih']

/-! ## Concrete fixtures used by the witness and counterexample theorems -/

/-- A concrete datetime with a nonzero microsecond component. -/
def dt0 : PyDateTime := ⟨2026, 10, 12, 10, 0, 0, 500⟩

def trOk : WavFile → Except String String := fun _ => Except.ok "hello world"

def trFail : WavFile → Except String String := fun _ => Except.error "whisper failed"

def llmOk : String → Except String LlamaResponse :=
  fun _ => Except.ok ⟨["Decisions: none. Actions: none."]⟩

def llmFail : String → Except String LlamaResponse := fun _ => Except.error "model exploded"

/-- Server 4 mid-recording with one buffered frame (used for C1). -/
def botC1 : BotState :=
  ⟨⟨16000, [(4, ⟨[[1, 2]], 4, 9, false, true⟩)], [4], [], 1, 2⟩,
   [(4, ⟨1, "Standup", dt0, 9, 5⟩)], ⟨[], 1⟩⟩

/-- Server 2 mid-recording with zero buffered frames (used for C2). -/
def botC2 : BotState :=
  ⟨⟨16000, [(2, ⟨[], 2, 9, false, true⟩)], [2], [], 1, 2⟩,
   [(2, ⟨1, "Retro", dt0, 9, 5⟩)], ⟨[], 1⟩⟩

/-- Server 3 mid-recording with one buffered frame (used for C3). -/
def botC3 : BotState :=
  ⟨⟨16000, [(3, ⟨[[9, 9]], 3, 9, false, true⟩)], [3], [], 1, 2⟩,
   [(3, ⟨1, "Planning", dt0, 9, 5⟩)], ⟨[], 1⟩⟩

/-- Server 5 mid-recording with one buffered frame (used for C4). -/
def botC4 : BotState :=
  ⟨⟨16000, [(5, ⟨[[3]], 5, 9, false, true⟩)], [5], [], 1, 2⟩,
   [(5, ⟨1, "Sync", dt0, 9, 5⟩)], ⟨[], 1⟩⟩

/-- Server 6 mid-recording with one buffered frame (used for C5). -/
def botC5 : BotState :=
  ⟨⟨16000, [(6, ⟨[[4, 4]], 6, 9, false, true⟩)], [6], [], 1, 2⟩,
   [(6, ⟨1, "Review", dt0, 9, 5⟩)], ⟨[], 1⟩⟩

/-- Server 1 live session (used for C8) and the empty bot state. -/
def botC8 : BotState :=
  ⟨⟨16000, [(1, ⟨[], 1, 9, false, true⟩)], [1], [], 1, 2⟩,
   [(1, ⟨1, "Weekly", dt0, 9, 5⟩)], ⟨[], 1⟩⟩

def botEmpty : BotState := ⟨⟨16000, [], [], [], 1, 1⟩, [], ⟨[], 1⟩⟩

/-! ## Claim theorems -/

/-- C6: finalizing a buffer with zero appended frames fails with the
`EmptyRecording` error (`ValueError: No audio data recorded`) for every
configured sample rate; no zero-length container is ever returned. -/
theorem c6_finalize_empty_fails (sample_rate : Nat) :
    save_audio_file sample_rate [] = Except.error StopErr.emptyRecording := rfl

/-- C7: for every nonempty sequence of appended frames, the finalized
container holds exactly the concatenation of the frame payloads in arrival
order — no reordering, duplication, or loss. -/
theorem c7_finalize_preserves_order (sample_rate : Nat) (buf : List (List Nat))
    (h : buf ≠ []) :
    save_audio_file sample_rate buf =
      Except.ok { nchannels := 2, sampwidth := 2, framerate := sample_rate,
                  data := buf.flatten } := by
  cases buf with
  | nil => exact absurd rfl h
  | cons f rest => rfl

/-- Witness for C7 at a concrete two-frame buffer. -/
theorem c7_witness :
    ([[1, 2], [3]] : List (List Nat)) ≠ [] ∧
    save_audio_file 16000 [[1, 2], [3]] =
      Except.ok { nchannels := 2, sampwidth := 2, framerate := 16000,
                  data := [1, 2, 3] } :=
  ⟨by decide, c7_finalize_preserves_order 16000 [[1, 2], [3]] (by decide)⟩

/-- C9: once a session has ended (entry removed, entry marked cancelled, or
listening stopped), a delivered frame is ignored and never appended; and
both `stop_recording` (every outcome) and the auto-stop firing leave the
session in such an ended state. -/
theorem c9_no_append_after_end (st st' : ProcState) (server_id : Nat) (data : List Nat)
    (h : recordingEnded st server_id) :
    deliver_frame st server_id data = st
    ∧ recordingEnded (stop_recording st' server_id).1 server_id
    ∧ recordingEnded (auto_stop_fire st' server_id) server_id := by
  refine ⟨?_, ?_, ?_⟩
  · by_cases hmem : server_id ∈ st.listening
    · rcases h with h1 | ⟨rd, hrd, hc⟩ | h3
      · simp [deliver_frame, hmem, audio_sink, h1]
      · simp [deliver_frame, hmem, audio_sink, hrd, hc]
      · exact absurd hmem h3
    · simp [deliver_frame, hmem]
  · cases hl : lookupA st'.recordings server_id with
    | none =>
      refine Or.inl ?_
      simp [stop_recording, hl]
    | some rd =>
      refine Or.inr (Or.inr ?_)
      by_cases hc : rd.cancelled
      · simp [stop_recording, hl, hc]
      · cases hsv : save_audio_file st'.sample_rate rd.audio_buffer with
        | error e => simp [stop_recording, hl, hc, hsv]
        | ok wav => simp [stop_recording, hl, hc, hsv]
  · cases hl : lookupA st'.recordings server_id with
    | none =>
      refine Or.inl ?_
      simp [auto_stop_fire, hl]
    | some rd =>
      refine Or.inl ?_
      simp [auto_stop_fire, hl]

/-- Witness for C9 at the empty processor state. -/
theorem c9_witness :
    deliver_frame ⟨16000, [], [], [], 1, 1⟩ 7 [1] = ⟨16000, [], [], [], 1, 1⟩
    ∧ recordingEnded (stop_recording ⟨16000, [], [], [], 1, 1⟩ 7).1 7
    ∧ recordingEnded (auto_stop_fire ⟨16000, [], [], [], 1, 1⟩ 7) 7 :=
  c9_no_append_after_end ⟨16000, [], [], [], 1, 1⟩ ⟨16000, [], [], [], 1, 1⟩ 7 [1]
    (Or.inl rfl)

/-- C10: saving a meeting and reading it back by the returned id yields the
same server, channel, name, transcript, and notes, and the two datetimes
truncated to whole seconds (the storage format drops microseconds). -/
theorem c10_save_get_roundtrip (db : DB) (server_id channel_id : Nat) (name : String)
    (t1 t2 : PyDateTime) (transcript notes : String)
    (h : ∀ r ∈ db.rows, r.id ≠ db.nextId) :
    get_meeting (save_meeting db server_id channel_id name t1 t2 transcript notes).1
        (save_meeting db server_id channel_id name t1 t2 transcript notes).2 =
      some { id := db.nextId, server_id := server_id, channel_id := channel_id,
             meeting_name := name, start_time := truncToSecond t1,
             end_time := truncToSecond t2, transcript := transcript, notes := notes } := by
  have hfind := find?_rows_append db.rows
    { id := db.nextId, server_id := server_id, channel_id := channel_id,
      meeting_name := name, start_time := strftime_ymd_hms t1,
      end_time := strftime_ymd_hms t2, transcript := transcript, notes := notes } h
  simp only [get_meeting, save_meeting, hfind]
  simp [strptime_ymd_hms, strftime_ymd_hms, truncToSecond]

/-- Witness for C10 at a concrete empty database and datetimes with
nonzero microseconds. -/
theorem c10_witness :
    (∀ r ∈ (⟨[], 1⟩ : DB).rows, r.id ≠ (⟨[], 1⟩ : DB).nextId) ∧
    get_meeting (save_meeting ⟨[], 1⟩ 1 9 "m" ⟨2026, 1, 2, 3, 4, 5, 6⟩
        ⟨2026, 1, 2, 3, 5, 6, 7⟩ "t" "n").1
        (save_meeting ⟨[], 1⟩ 1 9 "m" ⟨2026, 1, 2, 3, 4, 5, 6⟩
          ⟨2026, 1, 2, 3, 5, 6, 7⟩ "t" "n").2 =
      some ⟨1, 1, 9, "m", ⟨2026, 1, 2, 3, 4, 5, 0⟩, ⟨2026, 1, 2, 3, 5, 6, 0⟩, "t", "n"⟩ :=
  ⟨by simp, c10_save_get_roundtrip ⟨[], 1⟩ 1 9 "m" ⟨2026, 1, 2, 3, 4, 5, 6⟩
    ⟨2026, 1, 2, 3, 5, 6, 7⟩ "t" "n" (by simp)⟩

/-- C8: with the voice client connected, a start request while a session is
live for the server always reports already-recording and leaves the whole
state (in particular the existing session) unchanged; with no live session
it inserts fresh session metadata and a fresh recording entry in recording
state (empty buffer, not cancelled, timer armed, listening). -/
theorem c8_at_most_one_session (st : BotState) (server_id channel_id user_id : Nat)
    (nameOpt : Option String) (defaultName : String) (now : PyDateTime) :
    ((lookupA st.active server_id).isSome = true →
      start_meeting st true server_id channel_id user_id nameOpt defaultName now =
        (st, StartResult.alreadyRecording))
    ∧ (lookupA st.active server_id = none →
        (start_meeting st true server_id channel_id user_id nameOpt defaultName now).2 =
          StartResult.started st.proc.nextSessionId
        ∧ lookupA
            (start_meeting st true server_id channel_id user_id nameOpt defaultName now).1.active
            server_id =
          some ⟨st.proc.nextSessionId, nameOpt.getD defaultName, now, channel_id, user_id⟩
        ∧ lookupA
            (start_meeting st true server_id channel_id user_id nameOpt
              defaultName now).1.proc.recordings server_id =
          some ⟨[], server_id, channel_id, false, true⟩
        ∧ server_id ∈
            (start_meeting st true server_id channel_id user_id nameOpt
              defaultName now).1.proc.listening) := by
  constructor
  · intro h
    simp [start_meeting, h]
  · intro h
    refine ⟨?_, ?_, ?_, ?_⟩
    · simp [start_meeting, h, start_recording]
    · simp [start_meeting, h, start_recording]
    · simp [start_meeting, h, start_recording]
    · by_cases hmem : server_id ∈ st.proc.listening
      · simp [start_meeting, h, start_recording, hmem]
      · simp [start_meeting, h, start_recording, hmem]

/-- Witness for C8: the live-session case at `botC8` and the fresh case at
the empty bot state. -/
theorem c8_witness :
    start_meeting botC8 true 1 9 5 none "Meeting-20261012" dt0 =
      (botC8, StartResult.alreadyRecording)
    ∧ lookupA (start_meeting botEmpty true 1 9 5 none "Meeting-20261012" dt0).1.active 1 =
        some ⟨1, "Meeting-20261012", dt0, 9, 5⟩ :=
  ⟨(c8_at_most_one_session botC8 1 9 5 none "Meeting-20261012" dt0).1 rfl,
   ((c8_at_most_one_session botEmpty 1 9 5 none "Meeting-20261012" dt0).2 rfl).2.1⟩

/-- C1 counterexample: at `botC1` (server 4 recording, one buffered frame)
the auto-stop firing produces no audio container, runs no pipeline stage
(the database stays empty), deletes the processor entry instead of
finalizing it, and leaves the stale `active_recordings` entry in place —
refuting that the buffer is finalized through the manual-stop path and the
result handed to the pipeline. -/
theorem c1_counterexample :
    (auto_stop_event botC1 4).proc.tempFiles = []
    ∧ (auto_stop_event botC1 4).db.rows = []
    ∧ lookupA (auto_stop_event botC1 4).proc.recordings 4 = none
    ∧ lookupA (auto_stop_event botC1 4).active 4 = some ⟨1, "Standup", dt0, 9, 5⟩ :=
  ⟨rfl, rfl, rfl, rfl⟩

/-- C1 amended: when the auto-stop timer fires on a live recording, the code
marks the entry cancelled and deletes it without finalizing: listening
stops, no temp audio file is produced, the database and the
`active_recordings` dict are untouched (no pipeline runs and the session
never reaches a stopped-with-results outcome). -/
theorem c1_auto_stop_amended (st : BotState) (server_id : Nat) (rd : RecordingData)
    (h : lookupA st.proc.recordings server_id = some rd) :
    lookupA (auto_stop_event st server_id).proc.recordings server_id = none
    ∧ server_id ∉ (auto_stop_event st server_id).proc.listening
    ∧ (auto_stop_event st server_id).proc.tempFiles = st.proc.tempFiles
    ∧ (auto_stop_event st server_id).db = st.db
    ∧ (auto_stop_event st server_id).active = st.active := by
  refine ⟨?_, ?_, ?_, ?_, ?_⟩ <;> simp [auto_stop_event, auto_stop_fire, h]

/-- Witness for the amended C1 at `botC1`. -/
theorem c1_witness :
    lookupA (auto_stop_event botC1 4).proc.recordings 4 = none
    ∧ 4 ∉ (auto_stop_event botC1 4).proc.listening
    ∧ (auto_stop_event botC1 4).proc.tempFiles = botC1.proc.tempFiles
    ∧ (auto_stop_event botC1 4).db = botC1.db
    ∧ (auto_stop_event botC1 4).active = botC1.active :=
  c1_auto_stop_amended botC1 4 ⟨[[1, 2]], 4, 9, false, true⟩ rfl

/-- C2: evaluating the stop command at the failing input (server 2 live
with zero appended frames).  The empty-buffer error is raised and no
meeting is persisted, as the claim says, but the raise happens before
either cleanup line, so both `active_recordings` and
`AudioProcessor.recordings` still hold the server afterwards — the session
slot is NOT released, contradicting the claim and the unconditional-cleanup
requirement of the spec. -/
theorem c2_code_bug_eval :
    (stop_meeting trOk llmOk botC2 2 dt0).2 =
      StopResult.uncaughtStop StopErr.emptyRecording
    ∧ lookupA (stop_meeting trOk llmOk botC2 2 dt0).1.active 2 =
        some ⟨1, "Retro", dt0, 9, 5⟩
    ∧ lookupA (stop_meeting trOk llmOk botC2 2 dt0).1.proc.recordings 2 =
        some ⟨[], 2, 9, false, false⟩
    ∧ (stop_meeting trOk llmOk botC2 2 dt0).1.db.rows = [] :=
  ⟨rfl, rfl, rfl, rfl⟩

/-- C3 counterexample: at `botC3` (server 3 recording, one buffered frame)
a transport disconnect makes the handler call `stop_recording`, which saves
the buffered frames into a WAV in the temp directory — an audio container
IS produced, refuting that the frames collected so far are discarded. -/
theorem c3_counterexample :
    (on_voice_state_disconnect botC3 3).proc.tempFiles =
      [(1, ⟨2, 2, 16000, [9, 9]⟩)] := rfl

/-- C3 amended: on a transport disconnect during recording with a nonempty
buffer and the entry not marked cancelled, the session ceases listening and
both registries drop the server, and the pipeline is never invoked (the
database is untouched) — but the cancelled flag is never set and the buffer
is finalized into a WAV file that is left on disk unprocessed rather than
discarded. -/
theorem c3_disruption_amended (st : BotState) (server_id : Nat) (meta : SessionMeta)
    (rd : RecordingData) (h1 : lookupA st.active server_id = some meta)
    (h2 : lookupA st.proc.recordings server_id = some rd)
    (h3 : rd.cancelled = false) (h4 : rd.audio_buffer ≠ []) :
    lookupA (on_voice_state_disconnect st server_id).active server_id = none
    ∧ lookupA (on_voice_state_disconnect st server_id).proc.recordings server_id = none
    ∧ server_id ∉ (on_voice_state_disconnect st server_id).proc.listening
    ∧ (on_voice_state_disconnect st server_id).proc.tempFiles =
        st.proc.tempFiles ++ [(st.proc.nextFileId,
          ⟨2, 2, st.proc.sample_rate, rd.audio_buffer.flatten⟩)]
    ∧ (on_voice_state_disconnect st server_id).db = st.db := by
  cases hb : rd.audio_buffer with
  | nil => exact absurd hb h4
  | cons f rest =>
    refine ⟨?_, ?_, ?_, ?_, ?_⟩ <;>
      simp [on_voice_state_disconnect, h1, stop_recording, h2, h3, hb, save_audio_file]

/-- Witness for the amended C3 at `botC3`. -/
theorem c3_witness :
    lookupA (on_voice_state_disconnect botC3 3).active 3 = none
    ∧ lookupA (on_voice_state_disconnect botC3 3).proc.recordings 3 = none
    ∧ 3 ∉ (on_voice_state_disconnect botC3 3).proc.listening
    ∧ (on_voice_state_disconnect botC3 3).proc.tempFiles =
        botC3.proc.tempFiles ++ [(botC3.proc.nextFileId,
          ⟨2, 2, botC3.proc.sample_rate, [9, 9]⟩)]
    ∧ (on_voice_state_disconnect botC3 3).db = botC3.db :=
  c3_disruption_amended botC3 3 ⟨1, "Planning", dt0, 9, 5⟩ ⟨[[9, 9]], 3, 9, false, true⟩
    rfl rfl rfl (by decide)

/-- C4 counterexample: at `botC4` with a transcriber returning
`hello world` and an LLM call that raises `model exploded`, the stop
command reports SUCCESS (no stage-tagged error) and persists a meeting
whose notes field is the error text — refuting both halves of the claim. -/
theorem c4_counterexample :
    (stop_meeting trOk llmFail botC4 5 dt0).2 =
      StopResult.success 1 "Error generating meeting notes: model exploded"
    ∧ (stop_meeting trOk llmFail botC4 5 dt0).1.db.rows.map MeetingRow.notes =
        ["Error generating meeting notes: model exploded"] :=
  ⟨rfl, rfl⟩

/-- C4 amended: when the summarization call fails, `_process_transcript`
swallows the exception and returns the error message as the notes text; the
pipeline then continues as a success, persisting a meeting record whose
notes field is that error text, and no stage-tagged error reaches the
caller. -/
theorem c4_summarization_swallowed (st : BotState) (server_id : Nat) (meta : SessionMeta)
    (rd : RecordingData) (tr : WavFile → Except String String)
    (llm : String → Except String LlamaResponse) (now : PyDateTime) (t e : String)
    (h1 : lookupA st.active server_id = some meta)
    (h2 : lookupA st.proc.recordings server_id = some rd)
    (h3 : rd.cancelled = false) (h4 : rd.audio_buffer ≠ [])
    (h5 : tr ⟨2, 2, st.proc.sample_rate, rd.audio_buffer.flatten⟩ = Except.ok t)
    (h6 : llm (notesPrompt t) = Except.error e) :
    (stop_meeting tr llm st server_id now).2 =
      StopResult.success st.db.nextId ("Error generating meeting notes: " ++ e)
    ∧ (stop_meeting tr llm st server_id now).1.db.rows =
        st.db.rows ++ [⟨st.db.nextId, server_id, meta.channel_id, meta.meeting_name,
          strftime_ymd_hms meta.start_time, strftime_ymd_hms now, t,
          "Error generating meeting notes: " ++ e⟩] := by
  cases hb : rd.audio_buffer with
  | nil => exact absurd hb h4
  | cons f rest =>
    have h5' : tr ⟨2, 2, st.proc.sample_rate, (f :: rest).flatten⟩ = Except.ok t := by
      rw [← hb]; exact h5
    simp only [List.flatten_cons] at h5'
    constructor <;>
      simp [stop_meeting, h1, stop_recording, h2, h3, hb, save_audio_file, h5',
        process_transcript, h6, save_meeting]

/-- Witness for the amended C4 at `botC4`. -/
theorem c4_witness :
    (stop_meeting trOk llmFail botC4 5 dt0).2 =
      StopResult.success botC4.db.nextId
        ("Error generating meeting notes: " ++ "model exploded")
    ∧ (stop_meeting trOk llmFail botC4 5 dt0).1.db.rows =
        botC4.db.rows ++ [⟨botC4.db.nextId, 5, 9, "Sync", strftime_ymd_hms dt0,
          strftime_ymd_hms dt0, "hello world",
          "Error generating meeting notes: " ++ "model exploded"⟩] :=
  c4_summarization_swallowed botC4 5 ⟨1, "Sync", dt0, 9, 5⟩ ⟨[[3]], 5, 9, false, true⟩
    trOk llmFail dt0 "hello world" "model exploded" rfl rfl rfl (by decide) rfl rfl

/-- C5 counterexample: at `botC5` with a transcriber that raises, the stop
command reaches the terminal failure outcome but the finalized WAV is still
present in the temp directory — the audio file is NOT cleaned up on a stage
failure, refuting the claim. -/
theorem c5_counterexample :
    (stop_meeting trFail llmOk botC5 6 dt0).2 = StopResult.processingError "whisper failed"
    ∧ (stop_meeting trFail llmOk botC5 6 dt0).1.proc.tempFiles =
        [(1, ⟨2, 2, 16000, [4, 4]⟩)] :=
  ⟨rfl, rfl⟩

/-- C5 amended: the finalized audio file is deleted exactly once, and only
on the full-success path, after persistence; when the transcription stage
fails the file is left on disk (no failure-path cleanup exists). -/
theorem c5_cleanup_only_on_success (st : BotState) (server_id : Nat) (meta : SessionMeta)
    (rd : RecordingData) (tr : WavFile → Except String String)
    (llm : String → Except String LlamaResponse) (now : PyDateTime)
    (h1 : lookupA st.active server_id = some meta)
    (h2 : lookupA st.proc.recordings server_id = some rd)
    (h3 : rd.cancelled = false) (h4 : rd.audio_buffer ≠ [])
    (hfresh : ∀ p ∈ st.proc.tempFiles, p.1 ≠ st.proc.nextFileId) :
    (∀ e, tr ⟨2, 2, st.proc.sample_rate, rd.audio_buffer.flatten⟩ = Except.error e →
        (stop_meeting tr llm st server_id now).1.proc.tempFiles =
          st.proc.tempFiles ++ [(st.proc.nextFileId,
            ⟨2, 2, st.proc.sample_rate, rd.audio_buffer.flatten⟩)])
    ∧ (∀ t, tr ⟨2, 2, st.proc.sample_rate, rd.audio_buffer.flatten⟩ = Except.ok t →
        (stop_meeting tr llm st server_id now).1.proc.tempFiles =
          st.proc.tempFiles) := by
  cases hb : rd.audio_buffer with
  | nil => exact absurd hb h4
  | cons f rest =>
    have hrm : removeA (st.proc.tempFiles ++
        [(st.proc.nextFileId, ⟨2, 2, st.proc.sample_rate, (f :: rest).flatten⟩)])
        st.proc.nextFileId = st.proc.tempFiles :=
      removeA_append_of_fresh st.proc.tempFiles st.proc.nextFileId
        ⟨2, 2, st.proc.sample_rate, (f :: rest).flatten⟩ hfresh
    simp only [List.flatten_cons] at hrm
    constructor
    · intro e he
      simp only [List.flatten_cons] at he
      simp [stop_meeting, h1, stop_recording, h2, h3, hb, save_audio_file, he]
    · intro t ht
      simp only [List.flatten_cons] at ht
      simp [stop_meeting, h1, stop_recording, h2, h3, hb, save_audio_file, ht,
        save_meeting, hrm]

/-- Witness for the amended C5 at `botC5`, once with the failing and once
with the succeeding transcriber. -/
theorem c5_witness :
    (stop_meeting trFail llmOk botC5 6 dt0).1.proc.tempFiles =
      botC5.proc.tempFiles ++ [(botC5.proc.nextFileId, ⟨2, 2, 16000, [4, 4]⟩)]
    ∧ (stop_meeting trOk llmOk botC5 6 dt0).1.proc.tempFiles = botC5.proc.tempFiles :=
  ⟨(c5_cleanup_only_on_success botC5 6 ⟨1, "Review", dt0, 9, 5⟩ ⟨[[4, 4]], 6, 9, false, true⟩
      trFail llmOk dt0 rfl rfl rfl (by decide) (by simp [botC5])).1 "whisper failed" rfl,
   (c5_cleanup_only_on_success botC5 6 ⟨1, "Review", dt0, 9, 5⟩ ⟨[[4, 4]], 6, 9, false, true⟩
      trOk llmOk dt0 rfl rfl rfl (by decide) (by simp [botC5])).2 "hello world" rfl⟩

end MeetingNotes
